import Mathlib

/-!
Verification of the real-time session and messaging coordination layer of the
epop-platform repository: the JWT token lifecycle service
(`src/lib/auth/jwt-service.ts`), the password-service rate limiter
(`PasswordService.checkRateLimit` / `resetRateLimit`), and the Socket.IO
connection gateway (`SocketService`).

The TypeScript code is embedded shallowly: in-memory `Map`s become
association lists over `String` keys, `Date.now()` becomes an explicit
`Nat` millisecond parameter, and the cryptographic signing of
`jsonwebtoken` is modelled by recording, on each token, the secret it was
signed with — `jwt.verify(tok, secret)` succeeds exactly when the recorded
secret matches and the registered checks (algorithm, and where the caller
passes the options, issuer/audience, plus expiry) pass.
`crypto.randomBytes` id generation is determinized by a fresh counter
threaded through the service state; freshness of generated ids is an
explicit hypothesis where a proof needs it.
-/

/-- Association-list lookup, mirroring `Map.get`: returns the value at the
first occurrence of the key. -/
def lookupA {α : Type} (l : List (String × α)) (k : String) : Option α :=
  match l with
  | [] => none
  | (k', v) :: t => if k' = k then some v else lookupA t k

/-- Association-list update, mirroring `Map.set`: replaces the first
occurrence of the key, or appends a fresh entry. -/
def setA {α : Type} (k : String) (v : α) (l : List (String × α)) : List (String × α) :=
  match l with
  | [] => [(k, v)]
  | (k', v') :: t => if k' = k then (k, v) :: t else (k', v') :: setA k v t

/-- Association-list removal, mirroring `Map.delete`. -/
def eraseA {α : Type} (k : String) (l : List (String × α)) : List (String × α) :=
  match l with
  | [] => []
  | (k', v') :: t => if k' = k then t else (k', v') :: eraseA k t

/-- Number of entries stored under a key. -/
def countKey {α : Type} (l : List (String × α)) (k : String) : Nat :=
  (l.filter (fun kv => kv.1 = k)).length

/-! ## JWT token model (`src/lib/auth/jwt-service.ts`) -/

/-- The claims carried by a signed JWT.  `userId` is the extra claim read by
the socket gateway's `authenticateSocket` (`decoded.userId`); the
`JWTService.createPayload` issuance path never sets it. -/
structure JWTClaims where
  sub : String
  email : String
  role : String
  iss : String
  aud : String
  jti : Option String
  type : String
  /-- expiry, seconds since epoch (`exp` claim) -/
  exp : Nat
  /-- the `userId` claim read by `SocketService.authenticateSocket`; absent
  from tokens issued by `JWTService.createPayload` -/
  userId : Option String
deriving DecidableEq, Repr

/-- A signed token: its claims together with the secret it was signed with
and the signing algorithm (the shallow model of the signature). -/
structure SignedToken where
  claims : JWTClaims
  secret : String
  alg : String
deriving DecidableEq, Repr

def JWT_issuer : String := "http://localhost:3000"

def JWT_audience : String := "epop-platform-users"

def JWT_ACCESS_SECRET : String := "your-access-secret-key"

def JWT_REFRESH_SECRET : String := "your-refresh-secret-key"

/-- access token lifetime, seconds (15 minutes) -/
def accessTokenExpiry : Nat := 15 * 60

/-- refresh token lifetime, seconds (7 days) -/
def refreshTokenExpiry : Nat := 7 * 24 * 60 * 60

/-- `jwt.decode(token)`: read the claims without verifying anything. -/
def jwtDecode (tok : SignedToken) : JWTClaims := tok.claims

/-- `jwt.verify(token, secret, { issuer, audience, algorithms: [HS256] })`:
succeeds iff the signature (modelled as the recorded secret) matches, the
algorithm is the pinned HS256, issuer and audience equal the configured
values, and the token is unexpired at `nowSec`. -/
def jwtVerify (tok : SignedToken) (secret iss aud : String) (nowSec : Nat) :
    Option JWTClaims :=
  if tok.secret = secret ∧ tok.alg = "HS256" ∧ tok.claims.iss = iss ∧
      tok.claims.aud = aud ∧ nowSec < tok.claims.exp
  then some tok.claims else none

/-- `jwt.verify(token, secret)` with no options, as called by
`SocketService.authenticateSocket`: with a string secret, jsonwebtoken
accepts any HMAC algorithm and checks only signature and expiry — no
issuer, audience, or kind restriction. -/
def jwtVerifyDefault (tok : SignedToken) (secret : String) (nowSec : Nat) :
    Option JWTClaims :=
  if tok.secret = secret ∧ (tok.alg = "HS256" ∨ tok.alg = "HS384" ∨ tok.alg = "HS512") ∧
      nowSec < tok.claims.exp
  then some tok.claims else none

/-- One entry of the in-memory refresh-token registry (`refreshTokens` map). -/
structure RefreshTokenInfo where
  userId : String
  tokenId : String
  /-- expiry, milliseconds since epoch -/
  expiresAt : Nat
  /-- creation time, milliseconds since epoch -/
  createdAt : Nat
  isRevoked : Bool
deriving DecidableEq, Repr

/-- The module-level mutable state of `jwt-service.ts`: the refresh-token
registry, the blacklist, and the determinized fresh-id counter standing in
for `crypto.randomBytes`. -/
structure JWTState where
  refreshTokens : List (String × RefreshTokenInfo)
  blacklistedTokens : List String
  fresh : Nat
deriving DecidableEq, Repr

/-- Determinization of `JWTService.generateTokenId` (`crypto.randomBytes`). -/
def generateTokenId (n : Nat) : String := "tid" ++ toString n

/-- One row of the `users` table, as selected by the services. -/
structure DbUser where
  id : String
  email : String
  name : String
  role : String
  isActive : Bool
deriving DecidableEq, Repr

/-- `JWTService.generateAccessToken`: sign an access token; access tokens
are not registered server-side. -/
def generateAccessToken (st : JWTState) (user : DbUser) (nowMs : Nat) :
    SignedToken × JWTState :=
  let tid := generateTokenId st.fresh
  (⟨⟨user.id, user.email, user.role, JWT_issuer, JWT_audience, some tid, "access",
      nowMs / 1000 + accessTokenExpiry, none⟩, JWT_ACCESS_SECRET, "HS256"⟩,
   { st with fresh := st.fresh + 1 })

/-- `JWTService.generateRefreshToken`: sign a refresh token and register it
in the refresh-token registry, non-revoked. -/
def generateRefreshToken (st : JWTState) (user : DbUser) (nowMs : Nat) :
    SignedToken × JWTState :=
  let tid := generateTokenId st.fresh
  (⟨⟨user.id, user.email, user.role, JWT_issuer, JWT_audience, some tid, "refresh",
      nowMs / 1000 + refreshTokenExpiry, none⟩, JWT_REFRESH_SECRET, "HS256"⟩,
   { st with
      fresh := st.fresh + 1,
      refreshTokens :=
        setA tid ⟨user.id, tid, nowMs + refreshTokenExpiry * 1000, nowMs, false⟩
          st.refreshTokens })

/-- `JWTService.generateTokenPair`: an access token then a refresh token. -/
def generateTokenPair (st : JWTState) (user : DbUser) (nowMs : Nat) :
    (SignedToken × SignedToken) × JWTState :=
  let (access, st1) := generateAccessToken st user nowMs
  let (refresh, st2) := generateRefreshToken st1 user nowMs
  ((access, refresh), st2)

/-- `JWTService.validateAccessToken`: decode untrusted, reject if the `jti`
is blacklisted, verify signature/issuer/audience/expiry, then require
`type == access`. -/
def validateAccessToken (st : JWTState) (tok : SignedToken) (nowMs : Nat) :
    Option JWTClaims :=
  let decoded := jwtDecode tok
  if (match decoded.jti with
      | some j => st.blacklistedTokens.contains j
      | none => false)
  then none
  else
    match jwtVerify tok JWT_ACCESS_SECRET JWT_issuer JWT_audience (nowMs / 1000) with
    | none => none
    | some payload => if payload.type = "access" then some payload else none

/-- `JWTService.validateRefreshToken`: verify signature/issuer/audience/
expiry against the refresh secret, require `type == refresh` and a `jti`,
and require the registry entry at that `jti` to exist, be non-revoked and
unexpired. -/
def validateRefreshToken (st : JWTState) (tok : SignedToken) (nowMs : Nat) :
    Option JWTClaims :=
  match jwtVerify tok JWT_REFRESH_SECRET JWT_issuer JWT_audience (nowMs / 1000) with
  | none => none
  | some payload =>
    if payload.type = "refresh" then
      match payload.jti with
      | none => none
      | some j =>
        match lookupA st.refreshTokens j with
        | none => none
        | some info =>
          if info.isRevoked ∨ info.expiresAt < nowMs then none else some payload
    else none

/-- `JWTService.revokeRefreshToken`: flip the registry entry's revoked flag. -/
def revokeRefreshToken (st : JWTState) (tokenId : String) : JWTState :=
  match lookupA st.refreshTokens tokenId with
  | none => st
  | some info =>
    { st with refreshTokens := setA tokenId { info with isRevoked := true } st.refreshTokens }

/-- `JWTService.blacklistToken`: decode and add the `jti` to the blacklist. -/
def blacklistToken (st : JWTState) (tok : SignedToken) : JWTState :=
  match (jwtDecode tok).jti with
  | none => st
  | some j =>
    if st.blacklistedTokens.contains j then st
    else { st with blacklistedTokens := j :: st.blacklistedTokens }

/-- `JWTService.refreshTokens` (rotation): validate the inbound refresh
token, look up the owning user, revoke the consumed registry entry, and
issue and register a brand-new pair. -/
def refreshTokensRotate (db : List DbUser) (st : JWTState) (tok : SignedToken)
    (nowMs : Nat) : Option (SignedToken × SignedToken) × JWTState :=
  match validateRefreshToken st tok nowMs with
  | none => (none, st)
  | some payload =>
    match payload.jti with
    | none => (none, st)
    | some j =>
      match db.find? (fun u => u.id = payload.sub) with
      | none => (none, st)
      | some user =>
        let st1 := revokeRefreshToken st j
        let (pair, st2) := generateTokenPair st1 user nowMs
        (some pair, st2)

/-- `JWTService.revokeAllUserTokens`: revoke every registry entry owned by
the user. -/
def revokeAllUserTokens (st : JWTState) (userId : String) : JWTState :=
  { st with
      refreshTokens := st.refreshTokens.map (fun kv =>
        if kv.2.userId = userId then (kv.1, { kv.2 with isRevoked := true }) else kv) }

/-! ## Password-service rate limiter (`PasswordService.checkRateLimit`) -/

/-- maximum failed attempts before lockout -/
def RATE_maxAttempts : Nat := 5

/-- lockout duration, milliseconds (15 minutes) -/
def RATE_lockoutDuration : Nat := 15 * 60 * 1000

/-- tracking window, milliseconds (1 hour) -/
def RATE_trackingWindow : Nat := 60 * 60 * 1000

/-- One entry of the in-memory `rateLimitStore`. -/
structure RateRecord where
  attempts : Nat
  firstAttempt : Nat
  lockedUntil : Option Nat
deriving DecidableEq, Repr

/-- What `checkRateLimit` returns. -/
structure RateLimitResult where
  allowed : Bool
  attemptsRemaining : Nat
  lockedUntil : Option Nat
  /-- seconds -/
  retryAfter : Option Nat
deriving DecidableEq, Repr

/-- Key construction: `identifier:ipAddress` when an origin is given. -/
def rateKey (identifier : String) (ip : Option String) : String :=
  match ip with
  | some a => identifier ++ ":" ++ a
  | none => identifier

/-- `PasswordService.checkRateLimit`.  Faithful to the source, including
that the current key's record is read from the store BEFORE the
tracking-window cleanup prunes stale entries, and that the subsequent
Map.set re-inserts the (possibly stale) record. -/
def checkRateLimit (st : List (String × RateRecord)) (identifier : String)
    (ip : Option String) (now : Nat) : RateLimitResult × List (String × RateRecord) :=
  let key := rateKey identifier ip
  let record := lookupA st key
  let st1 := st.filter (fun kv => ¬ RATE_trackingWindow < now - kv.2.firstAttempt)
  match record with
  | none =>
    (⟨true, RATE_maxAttempts - 1, none, none⟩,
     setA key ⟨1, now, none⟩ st1)
  | some r =>
    match r.lockedUntil with
    | some lockT =>
      if now < lockT then
        (⟨false, 0, some lockT, some ((lockT - now + 999) / 1000)⟩, st1)
      else
        (⟨true, RATE_maxAttempts - 1, none, none⟩,
         setA key ⟨1, now, none⟩ st1)
    | none =>
      if RATE_maxAttempts ≤ r.attempts + 1 then
        (⟨false, 0, some (now + RATE_lockoutDuration), some ((RATE_lockoutDuration + 999) / 1000)⟩,
         setA key { r with attempts := r.attempts + 1,
                           lockedUntil := some (now + RATE_lockoutDuration) } st1)
      else
        (⟨true, RATE_maxAttempts - (r.attempts + 1), none, none⟩,
         setA key { r with attempts := r.attempts + 1 } st1)

/-- `PasswordService.resetRateLimit` (run after a successful
authentication): delete the key's record. -/
def resetRateLimit (st : List (String × RateRecord)) (identifier : String)
    (ip : Option String) : List (String × RateRecord) :=
  eraseA (rateKey identifier ip) st

/-- Run `checkRateLimit` once per listed timestamp, collecting the results. -/
def runRateChecks (st : List (String × RateRecord)) (identifier : String)
    (ip : Option String) (times : List Nat) :
    List RateLimitResult × List (String × RateRecord) :=
  match times with
  | [] => ([], st)
  | t :: rest =>
    let (r, st1) := checkRateLimit st identifier ip t
    let (rs, st2) := runRateChecks st1 identifier ip rest
    (r :: rs, st2)

/-! ## Socket gateway model (`SocketService`) -/

/-- The per-socket data attached after authentication
(`socket.id`, `socket.userId`, `socket.user.name`). -/
structure SockInfo where
  id : String
  userId : String
  userName : String
deriving DecidableEq, Repr

/-- Where an emitted event is delivered. -/
inductive Target
  /-- `io.emit`: every connected socket -/
  | all : Target
  /-- `socket.to(room).emit`: the room's sockets minus the sender -/
  | roomExcept : String → String → Target
  /-- `socket.emit`: the originating socket only -/
  | sock : String → Target
deriving DecidableEq, Repr

/-- The gateway→client events relevant to the claims. -/
inductive GEvent
  | presenceUser : String → String → Option Nat → GEvent
  | typingUser : String → String → String → Bool → GEvent
  | messageNew : String → String → String → String → GEvent
  | errorMsg : String → GEvent
deriving DecidableEq, Repr

/-- An emission: a target and an event. -/
structure Emit where
  target : Target
  event : GEvent
deriving DecidableEq, Repr

/-- The `SocketService` instance state: `userSockets` (userId → socket-id
set), `typingTimeouts` (key → pending expiry deadline in ms), and the
socket-id membership of each Socket.IO room. -/
structure SockState where
  userSockets : List (String × List String)
  typingTimeouts : List (String × Nat)
  rooms : List (String × List String)
deriving DecidableEq, Repr

/-- The `${userId}:${conversationId}` key of `typingTimeouts`. -/
def typingKey (sock : SockInfo) (conversationId : String) : String :=
  sock.userId ++ ":" ++ conversationId

/-- `SocketService.broadcastPresence`: fleet-wide `presence:user` emit;
`lastSeen` is stamped exactly when the status is `offline`. -/
def broadcastPresence (userId status : String) (now : Nat) : Emit :=
  ⟨Target.all, GEvent.presenceUser userId status (if status = "offline" then some now else none)⟩

/-- One row of the `conversationMembers` table. -/
structure ConvMember where
  conversationId : String
  userId : String
  hasLeft : Bool
deriving DecidableEq, Repr

/-- The membership query of `handleJoinConversation`: a non-left
`conversationMembers` row for this conversation and user. -/
def isMember (mdb : List ConvMember) (conversationId userId : String) : Bool :=
  mdb.any (fun m => m.conversationId = conversationId && m.userId = userId && m.hasLeft = false)

/-- `SocketService.authenticateSocket`: read the handshake token, verify it
with `jwt.verify(token, JWT_SECRET)` (default options: signature and expiry
only), look the `userId` claim up in the `users` table, require the user to
be active, and only then record the socket in `userSockets`.  Every failure
path returns a structured error and leaves the state untouched. -/
def authenticateSocket (db : List DbUser) (jwtSecretEnv : Option String)
    (st : SockState) (sockId : String) (tokenOpt : Option SignedToken)
    (nowSec : Nat) : Except String DbUser × SockState :=
  match tokenOpt with
  | none => (Except.error "Authentication token required", st)
  | some tok =>
    match jwtSecretEnv with
    | none => (Except.error "JWT secret not configured", st)
    | some secret =>
      match jwtVerifyDefault tok secret nowSec with
      | none => (Except.error "Authentication failed", st)
      | some decoded =>
        match decoded.userId with
        | none => (Except.error "User not found or inactive", st)
        | some uid =>
          match db.find? (fun u => u.id = uid) with
          | none => (Except.error "User not found or inactive", st)
          | some user =>
            if user.isActive then
              let sockets :=
                match lookupA st.userSockets user.id with
                | none => [sockId]
                | some l => if sockId ∈ l then l else l ++ [sockId]
              (Except.ok user,
               { st with userSockets := setA user.id sockets st.userSockets })
            else (Except.error "User not found or inactive", st)

/-- Live-connection count of a user: the size of their `userSockets` set. -/
def liveCount (st : SockState) (userId : String) : Nat :=
  match lookupA st.userSockets userId with
  | none => 0
  | some l => l.length

/-- `SocketService.handleTypingStart`: clear any pending timer for the
`(user, conversation)` key, arm a fresh 3-second one, and broadcast
`typing:user{isTyping:true}` to the conversation room. -/
def handleTypingStart (st : SockState) (sock : SockInfo) (conversationId : String)
    (now : Nat) : SockState × List Emit :=
  let key := typingKey sock conversationId
  ({ st with typingTimeouts := setA key (now + 3000) st.typingTimeouts },
   [⟨Target.roomExcept ("conversation:" ++ conversationId) sock.id,
     GEvent.typingUser conversationId sock.userId sock.userName true⟩])

/-- `SocketService.handleTypingStop`: clear the pending timer if any, then
(unconditionally) broadcast `typing:user{isTyping:false}`. -/
def handleTypingStop (st : SockState) (sock : SockInfo) (conversationId : String) :
    SockState × List Emit :=
  let key := typingKey sock conversationId
  ({ st with typingTimeouts := eraseA key st.typingTimeouts },
   [⟨Target.roomExcept ("conversation:" ++ conversationId) sock.id,
     GEvent.typingUser conversationId sock.userId sock.userName false⟩])

/-- The 3-second timer armed by `handleTypingStart` firing at its deadline:
it runs `handleTypingStop` provided it was not cleared or replaced in the
meantime (modelled by the deadline still being registered). -/
def timerFire (st : SockState) (sock : SockInfo) (conversationId : String)
    (now : Nat) : SockState × List Emit :=
  if lookupA st.typingTimeouts (typingKey sock conversationId) = some now then
    handleTypingStop st sock conversationId
  else (st, [])

/-- `SocketService.handleMessageSend`: broadcast `message:new` to the
conversation room, then run `handleTypingStop` for the sender. -/
def handleMessageSend (st : SockState) (sock : SockInfo) (conversationId : String)
    (content : String) : SockState × List Emit :=
  let msg : Emit :=
    ⟨Target.roomExcept ("conversation:" ++ conversationId) sock.id,
     GEvent.messageNew conversationId sock.userId sock.userName content⟩
  let (st1, es1) := handleTypingStop st sock conversationId
  (st1, msg :: es1)

/-- `SocketService.handleJoinConversation`: require a non-left membership
row; on failure emit an `error` event to the caller only and change
nothing; on success join the socket to the conversation room and notify
the room's other occupants. -/
def handleJoinConversation (mdb : List ConvMember) (st : SockState)
    (sock : SockInfo) (conversationId : String) : SockState × List Emit :=
  if isMember mdb conversationId sock.userId then
    let room := "conversation:" ++ conversationId
    let members :=
      match lookupA st.rooms room with
      | none => [sock.id]
      | some l => if sock.id ∈ l then l else l ++ [sock.id]
    ({ st with rooms := setA room members st.rooms },
     [⟨Target.roomExcept room sock.id, GEvent.presenceUser sock.userId "online" none⟩])
  else
    (st, [⟨Target.sock sock.id, GEvent.errorMsg "Not a member of this conversation"⟩])

/-- `SocketService.handleLeaveConversation`: leave the room and emit a
room-scoped offline `presence:user` (without `lastSeen`). -/
def handleLeaveConversation (st : SockState) (sock : SockInfo)
    (conversationId : String) : SockState × List Emit :=
  let room := "conversation:" ++ conversationId
  let st1 :=
    match lookupA st.rooms room with
    | none => st
    | some l => { st with rooms := setA room (l.erase sock.id) st.rooms }
  (st1, [⟨Target.roomExcept room sock.id, GEvent.presenceUser sock.userId "offline" none⟩])

/-- The `presence:update` handler registered by `registerEventHandlers`:
`broadcastPresence(socket.userId, status)` with the client-chosen status. -/
def handlePresenceUpdate (st : SockState) (sock : SockInfo) (status : String)
    (now : Nat) : SockState × List Emit :=
  (st, [broadcastPresence sock.userId status now])

/-- `SocketService.handleDisconnection`: drop the socket from the user's
set, broadcast offline presence exactly when the set became empty, and
clear every typing timer keyed under this user. -/
def handleDisconnection (st : SockState) (sock : SockInfo) (now : Nat) :
    SockState × List Emit :=
  let cleanTyping :=
    st.typingTimeouts.filter (fun kv => ¬ kv.1.startsWith (sock.userId ++ ":"))
  match lookupA st.userSockets sock.userId with
  | none => ({ st with typingTimeouts := cleanTyping }, [])
  | some l =>
    let remaining := l.erase sock.id
    if remaining.isEmpty then
      ({ st with userSockets := eraseA sock.userId st.userSockets,
                 typingTimeouts := cleanTyping },
       [broadcastPresence sock.userId "offline" now])
    else
      ({ st with userSockets := setA sock.userId remaining st.userSockets,
                 typingTimeouts := cleanTyping },
       [])

/-- Disconnect a list of sockets in order, concatenating the emissions. -/
def runDisconnects (st : SockState) (socks : List SockInfo) (now : Nat) :
    SockState × List Emit :=
  match socks with
  | [] => (st, [])
  | s :: rest =>
    let (st1, es1) := handleDisconnection st s now
    let (st2, es2) := runDisconnects st1 rest now
    (st2, es1 ++ es2)

/-- The typing-timer cleanup of `handleDisconnection`: drop every timer
keyed under the user. -/
def cleanTypingFor (st : SockState) (userId : String) : List (String × Nat) :=
  st.typingTimeouts.filter (fun kv => ¬ kv.1.startsWith (userId ++ ":"))

/-! ## Concrete fixtures used by witnesses and counterexamples -/

/-- An active user row. -/
def aliceUser : DbUser := ⟨"u1", "alice@example.com", "Alice", "USER", true⟩

/-- A JWT-service state holding one non-revoked, unexpired refresh
registry entry with id `jr`. -/
def jwtStateW : JWTState := ⟨[("jr", ⟨"u1", "jr", 1000000000000, 0, false⟩)], [], 0⟩

/-- The refresh token matching `jwtStateW`'s registry entry. -/
def refreshTokW : SignedToken :=
  ⟨⟨"u1", "alice@example.com", "USER", JWT_issuer, JWT_audience, some "jr", "refresh",
    1000000000, none⟩, JWT_REFRESH_SECRET, "HS256"⟩

/-- An access token exactly as `JWTService.generateAccessToken` issues it:
`sub` set, no `userId` claim, signed with the access secret. -/
def accessTokW : SignedToken :=
  ⟨⟨"u1", "alice@example.com", "USER", JWT_issuer, JWT_audience, some "ja", "access",
    1000000000, none⟩, JWT_ACCESS_SECRET, "HS256"⟩

/-- A token the socket gateway accepts: signed with the gateway's
`JWT_SECRET`, carrying a `userId` claim — and of kind `refresh`,
which `validateAccess` would reject. -/
def gatewayTokW : SignedToken :=
  ⟨⟨"u1", "alice@example.com", "USER", "other-iss", "other-aud", none, "refresh",
    1000000000, some "u1"⟩, "gateway-secret", "HS256"⟩

/-- First rotation of `refreshTokW` at t = 1000 ms. -/
def rotationW : Option (SignedToken × SignedToken) × JWTState :=
  refreshTokensRotate [aliceUser] jwtStateW refreshTokW 1000

/-- The token pair produced by the first rotation. -/
def rotationPairW : SignedToken × SignedToken := rotationW.1.getD (refreshTokW, refreshTokW)

/-- The JWT-service state after the first rotation. -/
def rotationStateW : JWTState := rotationW.2

/-- Two sockets of the same user (two devices). -/
def sock1 : SockInfo := ⟨"s1", "u1", "Alice"⟩

/-- Second socket of the same user. -/
def sock2 : SockInfo := ⟨"s2", "u1", "Alice"⟩

/-- Gateway state: user `u1` holds two live connections, no typing timers. -/
def sockStateTwoConn : SockState := ⟨[("u1", ["s1", "s2"])], [], []⟩

/-- Gateway state: user `u1` holds one live connection, no typing timers
(so every (user, room) typing pair is idle). -/
def sockStateOneConn : SockState := ⟨[("u1", ["s1"])], [], []⟩

/-- The rate-limit store after four failed attempts at t = 0 for
`alice:1.2.3.4`. -/
def rateStoreFourFails : List (String × RateRecord) :=
  (runRateChecks [] "alice" (some "1.2.3.4") [0, 0, 0, 0]).2

/-! ## General lemmas about the association-list operations -/

theorem lookupA_setA_self {α : Type} (l : List (String × α)) (k : String) (v : α) :
    lookupA (setA k v l) k = some v := by
  induction l with
  | nil => simp [setA, lookupA]
  | cons hd t ih =>
    by_cases h : hd.1 = k
    · simp [setA, h, lookupA]
    · simp [setA, h, lookupA, ih]

theorem lookupA_setA_ne {α : Type} (l : List (String × α)) (k k' : String) (v : α)
    (h : k' ≠ k) : lookupA (setA k v l) k' = lookupA l k' := by
  induction l with
  | nil => simp [setA, lookupA, Ne.symm h]
  | cons hd t ih =>
    obtain ⟨k1, v1⟩ := hd
    by_cases hk : k1 = k
    · subst hk
      simp [setA, lookupA, Ne.symm h]
    · by_cases hk' : k1 = k'
      · simp [setA, hk, lookupA, hk', h]
      · simp [setA, hk, lookupA, hk', ih]

theorem lookupA_eq_none_of_not_mem {α : Type} (l : List (String × α)) (k : String)
    (h : k ∉ l.map Prod.fst) : lookupA l k = none := by
  induction l with
  | nil => rfl
  | cons hd t ih =>
    simp only [List.map_cons, List.mem_cons] at h
    push_neg at h
    simp [lookupA, Ne.symm h.1, ih h.2]

theorem lookupA_eraseA_self {α : Type} (l : List (String × α)) (k : String)
    (h : (l.map Prod.fst).Nodup) : lookupA (eraseA k l) k = none := by
  induction l with
  | nil => rfl
  | cons hd t ih =>
    simp only [List.map_cons, List.nodup_cons] at h
    by_cases hk : hd.1 = k
    · simpa [eraseA, hk] using lookupA_eq_none_of_not_mem t k (hk ▸ h.1)
    · simp [eraseA, hk, lookupA, ih h.2]

theorem countKey_cons_eq {α : Type} (k : String) (v : α) (t : List (String × α)) :
    countKey ((k, v) :: t) k = countKey t k + 1 := by
  simp [countKey, List.filter_cons]

theorem countKey_cons_ne {α : Type} (k1 : String) (v1 : α) (t : List (String × α))
    (k : String) (h : ¬ k1 = k) : countKey ((k1, v1) :: t) k = countKey t k := by
  simp [countKey, List.filter_cons, h]

theorem countKey_setA {α : Type} (l : List (String × α)) (k : String) (v : α) :
    countKey (setA k v l) k = if countKey l k = 0 then 1 else countKey l k := by
  induction l with
  | nil => simp [setA, countKey]
  | cons hd t ih =>
    obtain ⟨k1, v1⟩ := hd
    by_cases hk : k1 = k
    · subst hk
      simp [setA, countKey_cons_eq]
    · simp only [setA, hk, if_false]
      rw [countKey_cons_ne k1 v1 _ k hk, countKey_cons_ne k1 v1 t k hk, ih]


/-! ## Lemmas about token validation -/

theorem jwtVerify_some {tok : SignedToken} {s i a : String} {n : Nat} {p : JWTClaims}
    (h : jwtVerify tok s i a n = some p) : p = tok.claims := by
  unfold jwtVerify at h
  split at h
  · exact (Option.some.inj h).symm
  · exact absurd h (by simp)

theorem validateAccessToken_eq (st : JWTState) (tok : SignedToken) (nowMs : Nat) :
    validateAccessToken st tok nowMs =
      if (match tok.claims.jti with
          | some j => st.blacklistedTokens.contains j
          | none => false) = true
      then none
      else
        match jwtVerify tok JWT_ACCESS_SECRET JWT_issuer JWT_audience (nowMs / 1000) with
        | none => none
        | some payload => if payload.type = "access" then some payload else none := rfl

theorem validateRefreshToken_some_inv {st : JWTState} {tok : SignedToken}
    {nowMs : Nat} {p : JWTClaims} (h : validateRefreshToken st tok nowMs = some p) :
    p = tok.claims ∧ tok.claims.type = "refresh" ∧
    ∃ j info, tok.claims.jti = some j ∧ lookupA st.refreshTokens j = some info ∧
      info.isRevoked = false ∧ ¬ info.expiresAt < nowMs := by
  unfold validateRefreshToken at h
  split at h
  · exact absurd h (by simp)
  · rename_i payload hv
    obtain rfl : payload = tok.claims := jwtVerify_some hv
    split at h
    · rename_i ht
      split at h
      · exact absurd h (by simp)
      · rename_i j hj
        split at h
        · exact absurd h (by simp)
        · rename_i info hl
          split at h
          · exact absurd h (by simp)
          · rename_i hc
            push_neg at hc
            obtain ⟨hc1, hc2⟩ := hc
            exact ⟨(Option.some.inj h).symm, ht, j, info, hj, hl,
              by simpa using hc1, by omega⟩
    · exact absurd h (by simp)

theorem validateRefreshToken_none_of_revoked {st : JWTState} {tok : SignedToken}
    {nowMs : Nat} {j : String} {info : RefreshTokenInfo}
    (hj : tok.claims.jti = some j) (hl : lookupA st.refreshTokens j = some info)
    (hr : info.isRevoked = true) : validateRefreshToken st tok nowMs = none := by
  unfold validateRefreshToken
  cases hv : jwtVerify tok JWT_REFRESH_SECRET JWT_issuer JWT_audience (nowMs / 1000) with
  | none => rfl
  | some payload =>
    obtain rfl : payload = tok.claims := jwtVerify_some hv
    by_cases ht : tok.claims.type = "refresh"
    · simp only [if_pos ht, hj, hl, if_pos (Or.inl (by simp [hr] : (info.isRevoked = true)))]
    · simp only [if_neg ht]

theorem validateRefreshToken_congr {st₁ st₂ : JWTState} {tok : SignedToken}
    {nowMs : Nat} (h : st₁.refreshTokens = st₂.refreshTokens) :
    validateRefreshToken st₁ tok nowMs = validateRefreshToken st₂ tok nowMs := by
  unfold validateRefreshToken
  rw [h]

/-! ## C6 — validateAccess check order and kind-mismatch invariant -/

/-- C6: `validateAccessToken` decodes without trusting claims and rejects a
blacklisted `jti` before (independently of) signature verification; it
rejects whenever the pinned signature/issuer/audience/expiry verification
fails; a refresh-kind token is never accepted by `validateAccessToken` and
an access-kind token is never accepted by `validateRefreshToken`; and
acceptance implies every check passed, in particular `kind == access` and a
clean blacklist. -/
theorem validate_access_check_order (st : JWTState) (tok : SignedToken) (nowMs : Nat) :
    (∀ j, tok.claims.jti = some j → st.blacklistedTokens.contains j = true →
      validateAccessToken st tok nowMs = none) ∧
    (jwtVerify tok JWT_ACCESS_SECRET JWT_issuer JWT_audience (nowMs / 1000) = none →
      validateAccessToken st tok nowMs = none) ∧
    (tok.claims.type = "refresh" → validateAccessToken st tok nowMs = none) ∧
    (tok.claims.type = "access" → validateRefreshToken st tok nowMs = none) ∧
    (∀ p, validateAccessToken st tok nowMs = some p →
      p = tok.claims ∧ tok.claims.type = "access" ∧
      (∀ j, tok.claims.jti = some j → st.blacklistedTokens.contains j = false) ∧
      jwtVerify tok JWT_ACCESS_SECRET JWT_issuer JWT_audience (nowMs / 1000) =
        some tok.claims) := by
  refine ⟨?_, ?_, ?_, ?_, ?_⟩
  · intro j hj hb
    have hcond : (match tok.claims.jti with
        | some j => st.blacklistedTokens.contains j
        | none => false) = true := by
      rw [hj]; exact hb
    rw [validateAccessToken_eq, if_pos hcond]
  · intro hv
    rw [validateAccessToken_eq]
    by_cases hbl : (match tok.claims.jti with
        | some j => st.blacklistedTokens.contains j
        | none => false) = true
    · rw [if_pos hbl]
    · simp only [if_neg hbl, hv]
  · intro ht
    rw [validateAccessToken_eq]
    by_cases hbl : (match tok.claims.jti with
        | some j => st.blacklistedTokens.contains j
        | none => false) = true
    · rw [if_pos hbl]
    · cases hv : jwtVerify tok JWT_ACCESS_SECRET JWT_issuer JWT_audience (nowMs / 1000) with
      | none => simp only [if_neg hbl]
      | some payload =>
        obtain rfl : payload = tok.claims := jwtVerify_some hv
        simp only [if_neg hbl,
          if_neg (show ¬ tok.claims.type = "access" by rw [ht]; decide)]
  · intro ht
    unfold validateRefreshToken
    cases hv : jwtVerify tok JWT_REFRESH_SECRET JWT_issuer JWT_audience (nowMs / 1000) with
    | none => rfl
    | some payload =>
      obtain rfl : payload = tok.claims := jwtVerify_some hv
      simp only [if_neg (show ¬ tok.claims.type = "refresh" by rw [ht]; decide)]
  · intro p h
    rw [validateAccessToken_eq] at h
    by_cases hbl : (match tok.claims.jti with
        | some j => st.blacklistedTokens.contains j
        | none => false) = true
    · rw [if_pos hbl] at h
      exact absurd h (by simp)
    · rw [if_neg hbl] at h
      revert h
      cases hv : jwtVerify tok JWT_ACCESS_SECRET JWT_issuer JWT_audience (nowMs / 1000) with
      | none => intro h; exact absurd h (by simp)
      | some payload =>
        intro h
        obtain rfl : payload = tok.claims := jwtVerify_some hv
        have h' : (if tok.claims.type = "access" then some tok.claims else none) = some p := h
        by_cases ht : tok.claims.type = "access"
        · rw [if_pos ht] at h'
          refine ⟨(Option.some.inj h').symm, ht, ?_, rfl⟩
          intro j hj
          rw [hj] at hbl
          simpa using hbl
        · rw [if_neg ht] at h'
          exact absurd h' (by simp)

/-- C6 witness: at concrete inputs, a refresh-kind token is rejected by
`validateAccessToken` and an access-kind token by `validateRefreshToken`. -/
theorem validate_access_check_order_witness :
    validateAccessToken ⟨[], [], 0⟩ refreshTokW 0 = none ∧
    validateRefreshToken ⟨[], [], 0⟩ accessTokW 0 = none :=
  ⟨(validate_access_check_order ⟨[], [], 0⟩ refreshTokW 0).2.2.1 rfl,
   (validate_access_check_order ⟨[], [], 0⟩ accessTokW 0).2.2.2.1 rfl⟩

/-! ## C10 — blacklisting never affects validateRefresh -/

/-- C10: the blacklist is consulted only on the access-token validation
path.  Blacklisting a token (as logout does) leaves `validateRefreshToken`
on that very token unchanged: any refresh token that validates against a
non-revoked, unexpired registry entry still validates after
`blacklistToken` was called on it. -/
theorem blacklist_does_not_affect_refresh (st : JWTState) (tok : SignedToken)
    (nowMs : Nat) (p : JWTClaims) (h : validateRefreshToken st tok nowMs = some p) :
    validateRefreshToken (blacklistToken st tok) tok nowMs = some p := by
  have hsame : (blacklistToken st tok).refreshTokens = st.refreshTokens := by
    unfold blacklistToken
    split
    · rfl
    · split
      · rfl
      · rfl
  rw [validateRefreshToken_congr hsame, h]

/-- C10 witness: a concrete refresh token still validates after being
blacklisted. -/
theorem blacklist_does_not_affect_refresh_witness :
    validateRefreshToken (blacklistToken jwtStateW refreshTokW) refreshTokW 1000 =
      some refreshTokW.claims :=
  blacklist_does_not_affect_refresh jwtStateW refreshTokW 1000 refreshTokW.claims (by rfl)

/-! ## C2 — refresh rotation is single-use -/

/-- C2: a successful rotation marks the consumed registry entry revoked and
registers a brand-new non-revoked entry (under the freshly generated id),
and any second rotation presenting the original token fails with the
invalid result (`null`), against any user table and at any later time.
The freshness hypothesis states that the newly generated refresh id differs
from the consumed one, which determinizes `crypto.randomBytes`. -/
theorem refresh_rotation_single_use
    (db db2 : List DbUser) (st st' : JWTState) (tok : SignedToken)
    (nowMs now2 : Nat) (pair : SignedToken × SignedToken) (j : String)
    (hjti : tok.claims.jti = some j)
    (hfresh : generateTokenId (st.fresh + 1) ≠ j)
    (hrun : refreshTokensRotate db st tok nowMs = (some pair, st')) :
    (refreshTokensRotate db2 st' tok now2).1 = none ∧
    (∃ info, lookupA st'.refreshTokens j = some info ∧ info.isRevoked = true) ∧
    (∃ info2, lookupA st'.refreshTokens (generateTokenId (st.fresh + 1)) = some info2 ∧
      info2.isRevoked = false ∧ info2.createdAt = nowMs) := by
  unfold refreshTokensRotate at hrun
  cases hval : validateRefreshToken st tok nowMs with
  | none =>
    rw [hval] at hrun
    exact absurd hrun (by simp)
  | some payload =>
    rw [hval] at hrun
    obtain ⟨hp, ht, j0, info0, hj0, hl0, hrev0, hexp0⟩ := validateRefreshToken_some_inv hval
    subst hp
    rw [hjti] at hj0
    obtain rfl : j = j0 := Option.some.inj hj0
    simp only [hjti] at hrun
    cases hfind : List.find? (fun u => u.id = tok.claims.sub) db with
    | none =>
      rw [hfind] at hrun
      exact absurd hrun (by simp)
    | some user =>
      rw [hfind] at hrun
      simp only [generateTokenPair, generateAccessToken, generateRefreshToken,
        revokeRefreshToken, hl0] at hrun
      rw [Prod.mk.injEq] at hrun
      obtain ⟨hpair, hst⟩ := hrun
      have hstR : st'.refreshTokens =
          setA (generateTokenId (st.fresh + 1))
            ⟨user.id, generateTokenId (st.fresh + 1), nowMs + refreshTokenExpiry * 1000,
              nowMs, false⟩
            (setA j { info0 with isRevoked := true } st.refreshTokens) := by
        rw [← hst]
      have hlook : lookupA st'.refreshTokens j = some { info0 with isRevoked := true } := by
        rw [hstR, lookupA_setA_ne _ _ _ _ (Ne.symm hfresh), lookupA_setA_self]
      have hnone : validateRefreshToken st' tok now2 = none :=
        validateRefreshToken_none_of_revoked hjti hlook rfl
      refine ⟨?_, ⟨_, hlook, rfl⟩, ⟨_, by rw [hstR, lookupA_setA_self], rfl, rfl⟩⟩
      unfold refreshTokensRotate
      rw [hnone]

/-- C2 witness: rotating the concrete refresh token once succeeds and its
second rotation at a later time returns the invalid result. -/
theorem refresh_rotation_single_use_witness :
    refreshTokW.claims.jti = some "jr" ∧
    (refreshTokensRotate [aliceUser] rotationStateW refreshTokW 2000).1 = none :=
  ⟨rfl, (refresh_rotation_single_use [aliceUser] [aliceUser] jwtStateW rotationStateW
      refreshTokW 1000 2000 rotationPairW "jr" rfl (by decide) (by rfl)).1⟩

/-! ## C9 — unauthorized joinRoom is rejected without mutation -/

/-- C9: when the caller's user has no live membership row for the
conversation, `handleJoinConversation` emits the `NotARoomMember` error
event (`'Not a member of this conversation'`) to the originating socket
only, and returns the state unchanged: no joined-room mutation, nothing
broadcast to room occupants, and the socket is not disconnected. -/
theorem join_nonmember_no_mutation (mdb : List ConvMember) (st : SockState)
    (sock : SockInfo) (conversationId : String)
    (h : isMember mdb conversationId sock.userId = false) :
    handleJoinConversation mdb st sock conversationId =
      (st, [⟨Target.sock sock.id, GEvent.errorMsg "Not a member of this conversation"⟩]) := by
  simp [handleJoinConversation, h]

/-- C9 witness: a concrete non-member join attempt. -/
theorem join_nonmember_no_mutation_witness :
    isMember [] "c1" sock1.userId = false ∧
    handleJoinConversation [] sockStateOneConn sock1 "c1" =
      (sockStateOneConn,
       [⟨Target.sock "s1", GEvent.errorMsg "Not a member of this conversation"⟩]) :=
  ⟨rfl, join_nonmember_no_mutation [] sockStateOneConn sock1 "c1" rfl⟩

/-! ## C4 — typing-stop broadcasts (corrected) -/

/-- C4 amended: `handleTypingStop` always emits exactly one
`typing:user{isTyping:false}` broadcast — including when the (user, room)
pair is already idle, so a repeated stop signal re-broadcasts rather than
being a no-op — and it clears the pair's pending timer entry. -/
theorem typing_stop_always_broadcasts (st : SockState) (sock : SockInfo)
    (conversationId : String)
    (h : (st.typingTimeouts.map Prod.fst).Nodup) :
    (handleTypingStop st sock conversationId).2 =
      [⟨Target.roomExcept ("conversation:" ++ conversationId) sock.id,
        GEvent.typingUser conversationId sock.userId sock.userName false⟩] ∧
    lookupA (handleTypingStop st sock conversationId).1.typingTimeouts
      (typingKey sock conversationId) = none :=
  ⟨rfl, lookupA_eraseA_self _ _ h⟩

/-- C4 witness: a concrete stop broadcasts once and leaves no timer. -/
theorem typing_stop_always_broadcasts_witness :
    (handleTypingStop sockStateOneConn sock1 "c1").2 =
      [⟨Target.roomExcept "conversation:c1" "s1",
        GEvent.typingUser "c1" "u1" "Alice" false⟩] ∧
    lookupA (handleTypingStop sockStateOneConn sock1 "c1").1.typingTimeouts
      (typingKey sock1 "c1") = none :=
  typing_stop_always_broadcasts sockStateOneConn sock1 "c1" (by decide)

/-- C4 counterexample: with the `(u1, c1)` pair idle (no pending typing
timer, no typing-start ever sent), an explicit typing-stop still emits the
`typing:user{isTyping:false}` broadcast, refuting the claim that repeated
stop signals while idle are no-ops that emit nothing. -/
theorem typing_stop_idle_rebroadcast_cex :
    lookupA sockStateOneConn.typingTimeouts "u1:c1" = none ∧
    (handleTypingStop sockStateOneConn sock1 "c1").2 =
      [⟨Target.roomExcept "conversation:c1" "s1",
        GEvent.typingUser "c1" "u1" "Alice" false⟩] :=
  ⟨rfl, rfl⟩

/-! ## C7 — typing-start (re)arms the 3-second timer -/

/-- C7: a typing-start arms the pair's expiry timer at `now + 3000` ms and
broadcasts typing=true; it resets rather than stacks (the pair keeps a
single timer entry, and a second start moves the deadline to its own
`t2 + 3000`); and with no further event, the timer firing at the deadline
broadcasts `typing:user{isTyping:false}` for the pair. -/
theorem typing_start_rearms_and_expires (st : SockState) (sock : SockInfo)
    (conversationId : String) (now t2 : Nat) :
    lookupA (handleTypingStart st sock conversationId now).1.typingTimeouts
      (typingKey sock conversationId) = some (now + 3000) ∧
    (handleTypingStart st sock conversationId now).2 =
      [⟨Target.roomExcept ("conversation:" ++ conversationId) sock.id,
        GEvent.typingUser conversationId sock.userId sock.userName true⟩] ∧
    (countKey st.typingTimeouts (typingKey sock conversationId) ≤ 1 →
      countKey (handleTypingStart st sock conversationId now).1.typingTimeouts
        (typingKey sock conversationId) = 1) ∧
    lookupA (handleTypingStart (handleTypingStart st sock conversationId now).1
        sock conversationId t2).1.typingTimeouts (typingKey sock conversationId) =
      some (t2 + 3000) ∧
    (timerFire (handleTypingStart st sock conversationId now).1 sock conversationId
        (now + 3000)).2 =
      [⟨Target.roomExcept ("conversation:" ++ conversationId) sock.id,
        GEvent.typingUser conversationId sock.userId sock.userName false⟩] := by
  refine ⟨lookupA_setA_self _ _ _, rfl, ?_, lookupA_setA_self _ _ _, ?_⟩
  · intro hle
    have hck : countKey (handleTypingStart st sock conversationId now).1.typingTimeouts
        (typingKey sock conversationId) =
        if countKey st.typingTimeouts (typingKey sock conversationId) = 0 then 1
        else countKey st.typingTimeouts (typingKey sock conversationId) :=
      countKey_setA _ _ _
    rw [hck]
    by_cases h0 : countKey st.typingTimeouts (typingKey sock conversationId) = 0
    · rw [if_pos h0]
    · rw [if_neg h0]
      omega
  · unfold timerFire
    rw [if_pos (show lookupA
        (handleTypingStart st sock conversationId now).1.typingTimeouts
        (typingKey sock conversationId) = some (now + 3000) from
      lookupA_setA_self _ _ _)]
    rfl

/-- C7 witness: concrete arming, rearming and expiry. -/
theorem typing_start_rearms_and_expires_witness :
    countKey sockStateOneConn.typingTimeouts (typingKey sock1 "c1") ≤ 1 ∧
    countKey (handleTypingStart sockStateOneConn sock1 "c1" 1000).1.typingTimeouts
      (typingKey sock1 "c1") = 1 ∧
    (timerFire (handleTypingStart sockStateOneConn sock1 "c1" 1000).1 sock1 "c1"
        4000).2 =
      [⟨Target.roomExcept "conversation:c1" "s1",
        GEvent.typingUser "c1" "u1" "Alice" false⟩] :=
  ⟨by decide,
   (typing_start_rearms_and_expires sockStateOneConn sock1 "c1" 1000 0).2.2.1 (by decide),
   (typing_start_rearms_and_expires sockStateOneConn sock1 "c1" 1000 0).2.2.2.2⟩

/-! ## C8 — message:send cancels the sender's typing state (corrected) -/

/-- C8 amended: handling `message:send` emits exactly two events — the
`message:new` broadcast first, then (immediately after, within the same
send handling) the `typing:user{isTyping:false}` broadcast for the sender
and room — and clears the sender's typing timer for that room, so typing
state never outlives the sent message. -/
theorem message_send_cancels_typing (st : SockState) (sock : SockInfo)
    (conversationId content : String)
    (h : (st.typingTimeouts.map Prod.fst).Nodup) :
    (handleMessageSend st sock conversationId content).2 =
      [⟨Target.roomExcept ("conversation:" ++ conversationId) sock.id,
        GEvent.messageNew conversationId sock.userId sock.userName content⟩,
       ⟨Target.roomExcept ("conversation:" ++ conversationId) sock.id,
        GEvent.typingUser conversationId sock.userId sock.userName false⟩] ∧
    lookupA (handleMessageSend st sock conversationId content).1.typingTimeouts
      (typingKey sock conversationId) = none :=
  ⟨rfl, lookupA_eraseA_self _ _ h⟩

/-- C8 witness: a concrete send emits message:new then typing=false and
clears the sender's timer. -/
theorem message_send_cancels_typing_witness :
    (handleMessageSend (handleTypingStart sockStateOneConn sock1 "c1" 0).1 sock1
        "c1" "hi").2 =
      [⟨Target.roomExcept "conversation:c1" "s1",
        GEvent.messageNew "c1" "u1" "Alice" "hi"⟩,
       ⟨Target.roomExcept "conversation:c1" "s1",
        GEvent.typingUser "c1" "u1" "Alice" false⟩] ∧
    lookupA (handleMessageSend (handleTypingStart sockStateOneConn sock1 "c1" 0).1
        sock1 "c1" "hi").1.typingTimeouts (typingKey sock1 "c1") = none :=
  message_send_cancels_typing (handleTypingStart sockStateOneConn sock1 "c1" 0).1
    sock1 "c1" "hi" (by decide)

/-- C8 counterexample: after `typing:start` in room c1, handling
`message:send` emits `message:new` at index 0 and the
`typing:user{isTyping:false}` broadcast at index 1 of the emission
sequence — the typing=false broadcast strictly follows `message:new`, so
it is not emitted before or together with it as the claim states. -/
theorem message_new_precedes_typing_false_cex :
    List.findIdx? (fun e => match e.event with
        | GEvent.messageNew _ _ _ _ => true
        | _ => false)
      (handleMessageSend (handleTypingStart sockStateOneConn sock1 "c1" 0).1
        sock1 "c1" "hi").2 = some 0 ∧
    List.findIdx? (fun e => match e.event with
        | GEvent.typingUser _ _ _ b => !b
        | _ => false)
      (handleMessageSend (handleTypingStart sockStateOneConn sock1 "c1" 0).1
        sock1 "c1" "hi").2 = some 1 :=
  ⟨rfl, rfl⟩


/-! ## C3 — offline presence on the last disconnect (corrected) -/

theorem handleDisconnection_eq (st : SockState) (sock : SockInfo) (now : Nat) :
    handleDisconnection st sock now =
      match lookupA st.userSockets sock.userId with
      | none => ({ st with typingTimeouts := cleanTypingFor st sock.userId }, [])
      | some l =>
        if (l.erase sock.id).isEmpty then
          ({ st with
              userSockets := eraseA sock.userId st.userSockets,
              typingTimeouts := cleanTypingFor st sock.userId },
           [broadcastPresence sock.userId "offline" now])
        else
          ({ st with
              userSockets := setA sock.userId (l.erase sock.id) st.userSockets,
              typingTimeouts := cleanTypingFor st sock.userId },
           []) := rfl

theorem runDisconnects_offline_once (u : String) (now : Nat) (socks : List SockInfo) :
    ∀ st : SockState, socks ≠ [] → (∀ s ∈ socks, s.userId = u) →
    lookupA st.userSockets u = some (socks.map SockInfo.id) →
    (socks.map SockInfo.id).Nodup →
    (runDisconnects st socks now).2 =
      [⟨Target.all, GEvent.presenceUser u "offline" (some now)⟩] := by
  induction socks with
  | nil =>
    intro st hne _ _ _
    exact absurd rfl hne
  | cons s rest ih =>
    intro st _ hu hids hnd
    have hsu : s.userId = u := hu s (List.mem_cons_self _ _)
    have hids' : lookupA st.userSockets s.userId =
        some (s.id :: rest.map SockInfo.id) := by
      rw [hsu]
      simpa using hids
    have herase : (s.id :: rest.map SockInfo.id).erase s.id = rest.map SockInfo.id :=
      List.erase_cons_head _ _
    by_cases hre : rest = []
    · subst hre
      have hstep : handleDisconnection st s now =
          ({ st with
              userSockets := eraseA s.userId st.userSockets,
              typingTimeouts := cleanTypingFor st s.userId },
           [broadcastPresence s.userId "offline" now]) := by
        rw [handleDisconnection_eq, hids']
        simp only [herase]
        rfl
      simp [runDisconnects, hstep, broadcastPresence, hsu]
    · have hempty : (rest.map SockInfo.id).isEmpty = false := by
        cases rest with
        | nil => exact absurd rfl hre
        | cons a b => rfl
      have hstep : handleDisconnection st s now =
          ({ st with
              userSockets := setA s.userId (rest.map SockInfo.id) st.userSockets,
              typingTimeouts := cleanTypingFor st s.userId },
           []) := by
        rw [handleDisconnection_eq, hids']
        simp only [herase, hempty]
        rw [if_neg (by simp)]
      have hrec : (runDisconnects
          { st with
            userSockets := setA s.userId (rest.map SockInfo.id) st.userSockets,
            typingTimeouts := cleanTypingFor st s.userId } rest now).2 =
          [⟨Target.all, GEvent.presenceUser u "offline" (some now)⟩] := by
        apply ih
        · exact hre
        · intro x hx
          exact hu x (List.mem_cons_of_mem _ hx)
        · show lookupA (setA s.userId (rest.map SockInfo.id) st.userSockets) u =
            some (rest.map SockInfo.id)
          rw [← hsu]
          exact lookupA_setA_self _ _ _
        · simp only [List.map_cons, List.nodup_cons] at hnd
          exact hnd.2
      simp only [runDisconnects, hstep, hrec, List.nil_append]

/-- C3 amended: restricted to the gateway's own connection-count
bookkeeping, the claim holds — disconnecting all of a user's N ≥ 1 live
connections produces exactly one offline presence broadcast, emitted at
the disconnect that empties the user's socket set, with `lastSeen`
stamped; no earlier disconnect emits any presence event.  However the
transition is not driven solely by that bookkeeping: a client
`presence:update('offline')` event broadcasts offline presence (with
`lastSeen`) at any time, regardless of the live-connection count. -/
theorem offline_broadcast_on_last_disconnect (u : String) (socks : List SockInfo)
    (st : SockState) (now : Nat) (hne : socks ≠ [])
    (hu : ∀ s ∈ socks, s.userId = u)
    (hids : lookupA st.userSockets u = some (socks.map SockInfo.id))
    (hnd : (socks.map SockInfo.id).Nodup) :
    (runDisconnects st socks now).2 =
      [⟨Target.all, GEvent.presenceUser u "offline" (some now)⟩] ∧
    (∀ (st2 : SockState) (sock : SockInfo) (t : Nat), sock.userId = u →
      (handlePresenceUpdate st2 sock "offline" t).2 =
        [⟨Target.all, GEvent.presenceUser u "offline" (some t)⟩]) :=
  ⟨runDisconnects_offline_once u now socks st hne hu hids hnd,
   fun st2 sock t hsock => by rw [← hsock]; rfl⟩

/-- C3 witness: user `u1` with two live connections; disconnecting both
yields exactly one offline broadcast, with `lastSeen` stamped. -/
theorem offline_broadcast_on_last_disconnect_witness :
    (runDisconnects sockStateTwoConn [sock1, sock2] 99).2 =
      [⟨Target.all, GEvent.presenceUser "u1" "offline" (some 99)⟩] :=
  (offline_broadcast_on_last_disconnect "u1" [sock1, sock2] sockStateTwoConn 99
    (by decide) (by decide) (by rfl) (by decide)).1

/-- C3 counterexample: user `u1` still holds one live connection
(live-connection count 1 > 0), yet the `presence:update('offline')` client
event makes the gateway broadcast offline presence with `lastSeen` stamped
— refuting the claim that no sequence of gateway events causes an offline
broadcast while the user's live-connection count is positive. -/
theorem presence_update_offline_while_connected_cex :
    liveCount sockStateOneConn "u1" = 1 ∧
    (handlePresenceUpdate sockStateOneConn sock1 "offline" 5000).2 =
      [⟨Target.all, GEvent.presenceUser "u1" "offline" (some 5000)⟩] :=
  ⟨rfl, rfl⟩

/-! ## C1 — gateway handshake authentication (corrected) -/

theorem jwtVerifyDefault_some {tok : SignedToken} {s : String} {n : Nat} {p : JWTClaims}
    (h : jwtVerifyDefault tok s n = some p) : p = tok.claims := by
  unfold jwtVerifyDefault at h
  split at h
  · exact (Option.some.inj h).symm
  · exact absurd h (by simp)

theorem authenticateSocket_state_inv (db : List DbUser) (env : Option String)
    (st : SockState) (sockId : String) (tokenOpt : Option SignedToken) (nowSec : Nat) :
    (authenticateSocket db env st sockId tokenOpt nowSec).2 = st ∨
    ∃ u, (authenticateSocket db env st sockId tokenOpt nowSec).1 = Except.ok u := by
  unfold authenticateSocket
  split
  · exact Or.inl rfl
  · split
    · exact Or.inl rfl
    · split
      · exact Or.inl rfl
      · split
        · exact Or.inl rfl
        · split
          · exact Or.inl rfl
          · rename_i user hfind
            by_cases hact : user.isActive = true
            · rw [if_pos hact]
              exact Or.inr ⟨user, rfl⟩
            · rw [if_neg hact]
              exact Or.inl rfl

theorem authenticateSocket_error_msg (db : List DbUser) (env : Option String)
    (st : SockState) (sockId : String) (tokenOpt : Option SignedToken) (nowSec : Nat)
    (e : String)
    (he : (authenticateSocket db env st sockId tokenOpt nowSec).1 = Except.error e) :
    e = "Authentication token required" ∨ e = "JWT secret not configured" ∨
    e = "Authentication failed" ∨ e = "User not found or inactive" := by
  unfold authenticateSocket at he
  split at he
  · exact Or.inl (Except.error.inj he).symm
  · split at he
    · exact Or.inr (Or.inl (Except.error.inj he).symm)
    · split at he
      · exact Or.inr (Or.inr (Or.inl (Except.error.inj he).symm))
      · split at he
        · exact Or.inr (Or.inr (Or.inr (Except.error.inj he).symm))
        · split at he
          · exact Or.inr (Or.inr (Or.inr (Except.error.inj he).symm))
          · rename_i user hfind
            by_cases hact : user.isActive = true
            · rw [if_pos hact] at he
              exact absurd he (by simp)
            · rw [if_neg hact] at he
              exact Or.inr (Or.inr (Or.inr (Except.error.inj he).symm))

theorem authenticateSocket_ok_inv {db : List DbUser} {env : Option String}
    {st : SockState} {sockId : String} {tokenOpt : Option SignedToken} {nowSec : Nat}
    {u : DbUser}
    (h : (authenticateSocket db env st sockId tokenOpt nowSec).1 = Except.ok u) :
    ∃ tok secret uid, tokenOpt = some tok ∧ env = some secret ∧
      jwtVerifyDefault tok secret nowSec = some tok.claims ∧
      tok.claims.userId = some uid ∧
      List.find? (fun x => x.id = uid) db = some u ∧ u.isActive = true := by
  cases tokenOpt with
  | none => exact absurd h (by simp [authenticateSocket])
  | some tok =>
    cases env with
    | none => exact absurd h (by simp [authenticateSocket])
    | some secret =>
      simp only [authenticateSocket] at h
      split at h
      · exact absurd h (by simp)
      · rename_i decoded hv
        obtain rfl : decoded = tok.claims := jwtVerifyDefault_some hv
        split at h
        · exact absurd h (by simp)
        · rename_i uid huid
          split at h
          · exact absurd h (by simp)
          · rename_i user hfind
            split at h
            · rename_i hact
              obtain rfl : user = u := by simpa using h
              exact ⟨tok, secret, uid, rfl, rfl, hv, huid, hfind, hact⟩
            · exact absurd h (by simp)

theorem authenticateSocket_ok_of {db : List DbUser} {st : SockState}
    {sockId : String} {nowSec : Nat} (tok : SignedToken) (secret uid : String)
    (user : DbUser)
    (hv : jwtVerifyDefault tok secret nowSec = some tok.claims)
    (huid : tok.claims.userId = some uid)
    (hfind : List.find? (fun x => x.id = uid) db = some user)
    (hact : user.isActive = true) :
    (authenticateSocket db (some secret) st sockId (some tok) nowSec).1 =
      Except.ok user := by
  unfold authenticateSocket
  simp [hv, huid, hfind, hact]

/-- C1 amended: the Gateway does not call `validateAccess`.  Its handshake
authentication verifies the token with its own `JWT_SECRET` (default
`jwt.verify`: signature and expiry only — no blacklist, issuer, audience
or kind check) and requires the token's `userId` claim to name an active
user in the database: the first conjunct shows every failure refuses the
connection with one of the four structured error reasons and allocates no
connection state; the second characterizes acceptance exactly by the
Gateway's own checks, with `validateAccess` nowhere involved. -/
theorem gateway_handshake_characterization (db : List DbUser)
    (env : Option String) (st : SockState) (sockId : String)
    (tokenOpt : Option SignedToken) (nowSec : Nat) :
    (∀ e, (authenticateSocket db env st sockId tokenOpt nowSec).1 = Except.error e →
      (authenticateSocket db env st sockId tokenOpt nowSec).2 = st ∧
      (e = "Authentication token required" ∨ e = "JWT secret not configured" ∨
        e = "Authentication failed" ∨ e = "User not found or inactive")) ∧
    ((∃ u, (authenticateSocket db env st sockId tokenOpt nowSec).1 = Except.ok u) ↔
      ∃ tok secret uid user, tokenOpt = some tok ∧ env = some secret ∧
        jwtVerifyDefault tok secret nowSec = some tok.claims ∧
        tok.claims.userId = some uid ∧
        List.find? (fun x => x.id = uid) db = some user ∧ user.isActive = true) := by
  constructor
  · intro e he
    constructor
    · rcases authenticateSocket_state_inv db env st sockId tokenOpt nowSec with h | ⟨u, hu⟩
      · exact h
      · rw [he] at hu
        exact absurd hu (by simp)
    · exact authenticateSocket_error_msg db env st sockId tokenOpt nowSec e he
  · constructor
    · rintro ⟨u, hu⟩
      obtain ⟨tok, secret, uid, htok, henv, hv, huid, hfind, hact⟩ :=
        authenticateSocket_ok_inv hu
      exact ⟨tok, secret, uid, u, htok, henv, hv, huid, hfind, hact⟩
    · rintro ⟨tok, secret, uid, user, rfl, rfl, hv, huid, hfind, hact⟩
      exact ⟨user, authenticateSocket_ok_of tok secret uid user hv huid hfind hact⟩

/-- C1 witness: the gateway accepts a token signed with its own secret
that carries a `userId` claim — even though its kind is `refresh` and
`validateAccess` rejects it. -/
theorem gateway_handshake_characterization_witness :
    (∃ u, (authenticateSocket [aliceUser] (some "gateway-secret") sockStateOneConn
        "s1" (some gatewayTokW) 0).1 = Except.ok u) ∧
    validateAccessToken ⟨[], [], 0⟩ gatewayTokW 0 = none :=
  ⟨(gateway_handshake_characterization [aliceUser] (some "gateway-secret")
      sockStateOneConn "s1" (some gatewayTokW) 0).2.mpr
    ⟨gatewayTokW, "gateway-secret", "u1", aliceUser, rfl, rfl, rfl, rfl, rfl, rfl⟩,
   rfl⟩

/-- C1 counterexample: an access token exactly as the Token Lifecycle
Service issues it (kind access, `sub` claim, signed with the access
secret, unexpired, not blacklisted) is accepted by `validateAccessToken`
but refused by the gateway handshake (which verifies with its own
`JWT_SECRET` and looks up a `userId` claim that service-issued tokens do
not carry) — and the refusal allocates no connection state.  Gateway
acceptance is therefore not equivalent to `validateAccess` acceptance. -/
theorem gateway_not_equiv_validateAccess_cex :
    validateAccessToken ⟨[], [], 0⟩ accessTokW 0 = some accessTokW.claims ∧
    (authenticateSocket [aliceUser] (some "gateway-secret") sockStateOneConn "s9"
        (some accessTokW) 0).1 = Except.error "Authentication failed" ∧
    (authenticateSocket [aliceUser] (some "gateway-secret") sockStateOneConn "s9"
        (some accessTokW) 0).2 = sockStateOneConn :=
  ⟨rfl, rfl, rfl⟩

/-! ## C5 — authentication rate limiting (corrected) -/

/-- C5 amended: for every identifier+origin key, starting from an empty
store, the first four failed attempts are allowed with 4, 3, 2, 1 attempts
remaining; the fifth reaches the threshold of 5 and returns not-allowed
with `retryAfter = 900` seconds (positive) and a lockout until
`now + 900000` ms (15 minutes); and after a successful authentication runs
`resetRateLimit`, the next attempt is allowed again with the full budget
minus one (4) remaining.  The count, however, is of consecutive failures
since the key's first recorded attempt, not of a 1-hour sliding window:
the pruning pass removes idle keys from the store, but the current key's
record is read before pruning and re-inserted afterwards. -/
theorem rate_limit_threshold_lockout_reset (identifier : String) (ip : Option String)
    (now now2 : Nat) :
    ((runRateChecks [] identifier ip [now, now, now, now]).1.map
        (fun r => (r.allowed, r.attemptsRemaining)) =
      [(true, 4), (true, 3), (true, 2), (true, 1)]) ∧
    ((checkRateLimit (runRateChecks [] identifier ip [now, now, now, now]).2
        identifier ip now).1 =
      ⟨false, 0, some (now + 900000), some 900⟩) ∧
    ((checkRateLimit (resetRateLimit
        (checkRateLimit (runRateChecks [] identifier ip [now, now, now, now]).2
          identifier ip now).2 identifier ip) identifier ip now2).1 =
      ⟨true, 4, none, none⟩) := by
  refine ⟨?_, ?_, ?_⟩ <;>
    simp [runRateChecks, checkRateLimit, resetRateLimit, eraseA, lookupA, setA,
      RATE_maxAttempts, RATE_lockoutDuration, RATE_trackingWindow, Nat.sub_self]

/-- C5 counterexample: four failures at t = 0 and a fifth attempt at
t = 7,200,000 ms (two hours later).  All four earlier failures lie outside
the 1-hour tracking window preceding the fifth attempt, so a 1-hour
sliding window would count only the current attempt (1 < 5) and the claim
requires the attempt to be allowed; `checkRateLimit` nevertheless returns
not-allowed with a 15-minute lockout, because it reads the key's record
before the window cleanup prunes it and so still counts the stale
attempts. -/
theorem rate_limit_stale_window_cex :
    (([0, 0, 0, 0] : List Nat).all
      (fun t => decide (RATE_trackingWindow < 7200000 - t)) = true) ∧
    (checkRateLimit rateStoreFourFails "alice" (some "1.2.3.4") 7200000).1.allowed =
      false ∧
    (checkRateLimit rateStoreFourFails "alice" (some "1.2.3.4") 7200000).1.retryAfter =
      some 900 :=
  ⟨rfl, rfl, rfl⟩
